import Mathlib

/-!
# animate.cpp: the Win32 / OpenGL animation loop

A shallow embedding of `src/animate.cpp`.  The program's globals (`hDC`,
`hPalette`, `animate`) together with the part of the OpenGL context and of the
thread's message state that the program drives are one record, `Program`.
Every call the program makes into the platform (Win32, GDI, OpenGL, the C++
runtime) is appended to `Program.calls`, in the order the source makes it.
Answers the platform gives back (is the window iconic, what does
`DefWindowProc` return, which message did `GetMessage` retrieve) are inputs.

Handles are natural numbers, `0` being `NULL`.  Constants that come from the
Windows SDK and OpenGL headers carry the values of those headers.
-/

namespace Animate

/-! ## Platform types and header constants -/

abbrev HWND := Nat
abbrev HDC := Nat
abbrev HPALETTE := Nat
abbrev UINT := Nat
abbrev WPARAM := Nat
abbrev LPARAM := Int
abbrev LONG := Int
abbrev LRESULT := Int

def TRUE : Int := 1
def FALSE : Int := 0

def WM_SIZE : UINT := 0x0005
def WM_ACTIVATE : UINT := 0x0006
def WM_PAINT : UINT := 0x000F
def WM_CLOSE : UINT := 0x0010
def WM_CHAR : UINT := 0x0102
def WM_LBUTTONDOWN : UINT := 0x0201
def WM_POWERBROADCAST : UINT := 0x0218
def WM_QUERYNEWPALETTE : UINT := 0x030F
def WM_PALETTECHANGED : UINT := 0x0311
def PBT_POWERSETTINGCHANGE : WPARAM := 0x8013

def GL_COLOR_BUFFER_BIT : Nat := 0x4000
def GL_TRIANGLES : Nat := 4

def PFD_DOUBLEBUFFER : Nat := 0x00000001
def PFD_DRAW_TO_WINDOW : Nat := 0x00000004
def PFD_SUPPORT_OPENGL : Nat := 0x00000020
def PFD_NEED_PALETTE : Nat := 0x00000080
def PFD_TYPE_RGBA : Nat := 0
def PFD_TYPE_COLORINDEX : Nat := 1
def PC_NOCOLLAPSE : Nat := 0x04

/-- The macro `LOWORD(l)` of the Windows headers:
`((WORD)(((DWORD_PTR)(l)) & 0xffff))`.  The low 16 bits of the two's
complement pattern of `l` are `l mod 2^16` for every pointer width. -/
def LOWORD (l : LPARAM) : Int := l % 65536

/-- The macro `HIWORD(l)` of the Windows headers:
`((WORD)((((DWORD_PTR)(l)) >> 16) & 0xffff))`, bits 16..31 of the two's
complement pattern of `l`. -/
def HIWORD (l : LPARAM) : Int := (l / 65536) % 65536

/-- The conversion of an `LRESULT` to `LONG`, the declared return type of
`WindowProc`: the low 32 bits of the value, read as a signed 32-bit number.
Where `LRESULT` is itself 32 bits wide the conversion changes nothing. -/
def toLONG (v : LRESULT) : LONG :=
  (v + 2147483648) % 4294967296 - 2147483648

/-- The macro `MAKELPARAM(lo, hi)` of the Windows headers, with which the
system packs a client size into the `lParam` of `WM_SIZE`: the 32-bit pattern
`lo | hi << 16` read as a signed `LONG` and sign-extended to `LPARAM`. -/
def MAKELPARAM (lo hi : Nat) : LPARAM :=
  let bits : Nat := (lo % 65536 + (hi % 65536) * 65536)
  if bits < 2147483648 then (bits : Int) else (bits : Int) - 4294967296

/-! ## The trace of platform calls -/

/-- The fields of a `MSG` that the program passes on. -/
structure MSG where
  hwnd : HWND
  message : UINT
  wParam : WPARAM
  lParam : LPARAM
  deriving DecidableEq, Repr

/-- A `PALETTEENTRY` of the Windows headers: four bytes. -/
structure PALETTEENTRY where
  peRed : Nat
  peGreen : Nat
  peBlue : Nat
  peFlags : Nat
  deriving DecidableEq, Repr

/-- A `LOGPALETTE` as the source allocates it.  The structure of the Windows
headers ends in `PALETTEENTRY palPalEntry[1]`, and the source allocates
`sizeof(LOGPALETTE) + sizeof(PALETTEENTRY) * n` bytes, so the allocation has
room for `n + 1` entries: `palPalEntry` is that array.  The palette table that
`CreatePalette` reads is its first `palNumEntries` entries. -/
structure LOGPALETTE where
  palVersion : Nat
  palNumEntries : Nat
  palPalEntry : List PALETTEENTRY
  deriving DecidableEq, Repr

/-- The palette table of a logical palette: the entries `CreatePalette`
reads. -/
def LOGPALETTE.table (lp : LOGPALETTE) : List PALETTEENTRY :=
  lp.palPalEntry.take lp.palNumEntries

/-- The fields of a `PIXELFORMATDESCRIPTOR` that the source reads, or sets to
something other than zero or the size and version header.  The colour fields
are `BYTE`s. -/
structure PIXELFORMATDESCRIPTOR where
  dwFlags : Nat
  iPixelType : Nat
  cColorBits : Nat
  cRedBits : Nat
  cRedShift : Nat
  cGreenBits : Nat
  cGreenShift : Nat
  cBlueBits : Nat
  cBlueShift : Nat
  deriving DecidableEq, Repr

/-- One call from the program into the platform, with its arguments. -/
inductive Call where
  | glClear (mask : Nat)
  | glRotatef (angle x y z : ℚ)
  | glBegin (mode : Nat)
  | glIndexi (c : Int)
  | glColor3f (r g b : ℚ)
  | glVertex2i (x y : Int)
  | glEnd
  | glFlush
  | glViewport (x y width height : Int)
  | SwapBuffers (hdc : HDC)
  | BeginPaint (hWnd : HWND)
  | EndPaint (hWnd : HWND)
  | PostMessage (hWnd : HWND) (uMsg : UINT) (wParam : WPARAM) (lParam : LPARAM)
  | PostQuitMessage (code : Int)
  | IsIconic (hWnd : HWND)
  | UnrealizeObject (hPal : HPALETTE)
  | SelectPalette (hdc : HDC) (hPal : HPALETTE) (force : Int)
  | RealizePalette (hdc : HDC)
  | DefWindowProc (hWnd : HWND) (uMsg : UINT) (wParam : WPARAM) (lParam : LPARAM)
  | cout (line : String)
  | TranslateMessage (msg : MSG)
  | DispatchMessage (msg : MSG)
  | MessageBox (text caption : String)
  | wglMakeCurrent (hdc : HDC) (hrc : Nat)
  | ReleaseDC (hWnd : HWND) (hdc : HDC)
  | wglDeleteContext (hrc : Nat)
  | DestroyWindow (hWnd : HWND)
  | DeleteObject (h : Nat)
  | PeekMessage (hWnd : HWND)
  | GetMessage (hWnd : HWND)
  | GetModuleHandle
  | LoadIcon
  | LoadCursor
  | RegisterClass (className : String)
  | CreateWindow (className title : String) (x y width height : Int)
  | GetDC (hWnd : HWND)
  | ChoosePixelFormat (hdc : HDC) (pfd : PIXELFORMATDESCRIPTOR)
  | SetPixelFormat (hdc : HDC) (pf : Int) (pfd : PIXELFORMATDESCRIPTOR)
  | DescribePixelFormat (hdc : HDC) (pf : Int)
  | GetSystemPaletteEntries (hdc : HDC) (start count : Nat)
  | CreatePalette (lpPal : LOGPALETTE)
  | wglCreateContext (hdc : HDC)
  | ShowWindow (hWnd : HWND)
  | UpdateWindow (hWnd : HWND)
  | RegisterPowerSettingNotification (hWnd : HWND)
  | exit (status : Int)
  deriving DecidableEq, Repr

/-- The viewport rectangle of the OpenGL context: x, y, width, height. -/
structure Viewport where
  x : Int
  y : Int
  width : Int
  height : Int
  deriving DecidableEq, Repr

/-- The state the program reads and writes.

* `hDC`, `hPalette`, `animate` are the three globals of the source
  (`GLboolean animate` only ever holds `GL_TRUE` or `GL_FALSE`).
* `rotationAngle` and `viewport` are the part of the OpenGL context the
  program changes.  The model-view matrix starts as the identity and is only
  ever multiplied by rotations about the z axis, so it is the rotation by the
  sum of the angles passed to `glRotatef`; that sum, in degrees and in exact
  arithmetic, is `rotationAngle`.
* `hInstance` is the function-local `static HINSTANCE hInstance` of
  `CreateOpenGLWindow`.
* `quitPosted` is the quit request of the thread's message queue, set by
  `PostQuitMessage`.
* `calls` is the trace of platform calls, oldest first. -/
structure Program where
  hDC : HDC
  hPalette : HPALETTE
  animate : Bool
  rotationAngle : ℚ
  viewport : Viewport
  hInstance : Nat
  quitPosted : Option Int
  calls : List Call
  deriving DecidableEq, Repr

/-- The state at program start: the initialisers of the globals, a fresh
context, nothing called yet. -/
def Program.init (vp : Viewport) : Program :=
  { hDC := 0, hPalette := 0, animate := true, rotationAngle := 0,
    viewport := vp, hInstance := 0, quitPosted := none, calls := [] }

/-- Record a platform call. -/
def emit (c : Call) (p : Program) : Program :=
  { p with calls := p.calls ++ [c] }

/-- The step angle of the source, in degrees: the value of the `float` literal
`0.01f`, the single-precision number nearest to 0.01, which is
`10737418 * 2^(-30) = 5368709 / 536870912` (bit pattern `0x3C23D70A`). -/
def rotationStep : ℚ := 5368709 / 536870912

/-- The call `glRotatef(angle, 0, 0, 1)`: multiplies the current matrix by a
rotation about the z axis. -/
def glRotatefZ (angle : ℚ) (p : Program) : Program :=
  emit (.glRotatef angle 0 0 1) { p with rotationAngle := p.rotationAngle + angle }

/-- The call `glViewport(x, y, w, h)`. -/
def glViewport (x y w h : Int) (p : Program) : Program :=
  emit (.glViewport x y w h) { p with viewport := ⟨x, y, w, h⟩ }

/-- The call `PostQuitMessage(code)`. -/
def PostQuitMessage (code : Int) (p : Program) : Program :=
  emit (.PostQuitMessage code) { p with quitPosted := some code }

/-- The process state of the specification: `Quitting` once a quit request has
been issued, `Running` before. -/
inductive ProcessState where
  | Running
  | Quitting
  deriving DecidableEq, Repr

/-- The process state a program state is in. -/
def Program.processState (p : Program) : ProcessState :=
  if p.quitPosted.isSome then .Quitting else .Running

/-! ## display -/

/-- The function `display()` of the source. -/
def display (p : Program) : Program :=
  let p := emit (.glClear GL_COLOR_BUFFER_BIT) p
  let p := if p.animate then glRotatefZ rotationStep p else p
  let p := emit (.glBegin GL_TRIANGLES) p
  let p := emit (.glIndexi 1) p
  let p := emit (.glColor3f 1 0 0) p
  let p := emit (.glVertex2i 0 1) p
  let p := emit (.glIndexi 2) p
  let p := emit (.glColor3f 0 1 0) p
  let p := emit (.glVertex2i (-1) (-1)) p
  let p := emit (.glIndexi 3) p
  let p := emit (.glColor3f 0 0 1) p
  let p := emit (.glVertex2i 1 (-1)) p
  let p := emit .glEnd p
  let p := emit .glFlush p
  emit (.SwapBuffers p.hDC) p

/-! ## WindowProc -/

/-- The memory `lParam` points to in a `WM_POWERBROADCAST` message, as far as
the source reads it: whether `PowerSetting` is `GUID_CONSOLE_DISPLAY_STATE`,
and the `DWORD` at `Data`. -/
structure POWERBROADCAST_SETTING where
  isConsoleDisplayState : Bool
  data : Nat

/-- What the platform answers while one message is handled. -/
structure Platform where
  /-- The answer of `IsIconic(hWnd)`. -/
  isIconic : Bool
  /-- The result of `DefWindowProc`, an `LRESULT`. -/
  defWindowProc : HWND → UINT → WPARAM → LPARAM → LRESULT
  /-- The structure behind the `lParam` of a power broadcast. -/
  powerSetting : LPARAM → POWERBROADCAST_SETTING
  /-- The local time, formatted by `std::put_time` with `"%F %T"`. -/
  timestamp : String

/-- The function `WindowProc` of the source: the value returned and the state
after the call. -/
def WindowProc (env : Platform) (hWnd : HWND) (uMsg : UINT) (wParam : WPARAM)
    (lParam : LPARAM) (p : Program) : LONG × Program :=
  let queryNewPalette (p : Program) : LONG × Program :=
    if p.hPalette ≠ 0 then
      let p := emit (.UnrealizeObject p.hPalette) p
      let p := emit (.SelectPalette p.hDC p.hPalette FALSE) p
      let p := emit (.RealizePalette p.hDC) p
      (TRUE, p)
    else
      (FALSE, p)
  let default (p : Program) : LONG × Program :=
    (toLONG (env.defWindowProc hWnd uMsg wParam lParam),
      emit (.DefWindowProc hWnd uMsg wParam lParam) p)
  if uMsg = WM_PAINT then
    let p := display p
    let p := emit (.BeginPaint hWnd) p
    let p := emit (.EndPaint hWnd) p
    (0, p)
  else if uMsg = WM_SIZE then
    let p := glViewport 0 0 (LOWORD lParam) (HIWORD lParam) p
    let p := emit (.PostMessage hWnd WM_PAINT 0 0) p
    (0, p)
  else if uMsg = WM_CHAR then
    let p :=
      if wParam = 27 then PostQuitMessage 0 p
      else if wParam = 32 then { p with animate := !p.animate }
      else p
    (0, p)
  else if uMsg = WM_ACTIVATE then
    let p := emit (.IsIconic hWnd) p
    let p := if env.isIconic then { p with animate := false }
             else { p with animate := true }
    (0, p)
  else if uMsg = WM_PALETTECHANGED then
    if hWnd = wParam then default p
    else queryNewPalette p
  else if uMsg = WM_QUERYNEWPALETTE then
    queryNewPalette p
  else if uMsg = WM_POWERBROADCAST then
    let p :=
      if wParam = PBT_POWERSETTINGCHANGE then
        let data := env.powerSetting lParam
        if data.isConsoleDisplayState then
          let option := data.data
          let state := if option = 0 then "off" else if option = 1 then "on" else "dimmed"
          emit (.cout (env.timestamp ++ " Screen is " ++ state ++ " now")) p
        else p
      else p
    (TRUE, p)
  else if uMsg = WM_LBUTTONDOWN then
    (TRUE, emit (.cout (env.timestamp ++ " Mouse click")) p)
  else if uMsg = WM_CLOSE then
    (0, PostQuitMessage 0 p)
  else
    default p

/-! ## CreateOpenGLWindow -/

/-- Undefined behaviour the palette code of the source can run into. -/
inductive Fault where
  /-- A shift `1 << k` whose result leaves `int`, or a shift by 32 or more. -/
  | shiftOutOfRange
  /-- An integer division by zero. -/
  | divisionByZero
  /-- A write past the end of the allocated `LOGPALETTE`. -/
  | writeOutOfBounds
  deriving DecidableEq, Repr

/-- The expression `1 << k` on `int`: defined as long as `2^k` is an `int`. -/
def shl1 (k : Nat) : Except Fault Nat :=
  if k < 31 then .ok (2 ^ k) else .error .shiftOutOfRange

/-- The expression `i >> k` on a non-negative `int`: defined for `k < 32`. -/
def shr (i k : Nat) : Except Fault Nat :=
  if k < 32 then .ok (i >>> k) else .error .shiftOutOfRange

/-- The expression `a / b` on non-negative `int`s. -/
def idiv (a b : Nat) : Except Fault Nat :=
  if b = 0 then .error .divisionByZero else .ok (a / b)

/-- The conversion of a non-negative `int` to `BYTE`. -/
def toBYTE (v : Nat) : Nat := v % 256

/-- The expression `(1 << bits) - 1` of the source. -/
def channelMask (bits : Nat) : Except Fault Nat := do
  let m ← shl1 bits
  pure (m - 1)

/-- The expression `(((i >> shift) & mask) * 255) / mask` of the source. -/
def rampChannel (i shift mask : Nat) : Except Fault Nat := do
  let s ← shr i shift
  idiv ((s &&& mask) * 255) mask

/-- The body of the ramp loop for entry `i`: the four fields written. -/
def rampEntry (pfd : PIXELFORMATDESCRIPTOR) (redMask greenMask blueMask i : Nat) :
    Except Fault PALETTEENTRY := do
  let r ← rampChannel i pfd.cRedShift redMask
  let g ← rampChannel i pfd.cGreenShift greenMask
  let b ← rampChannel i pfd.cBlueShift blueMask
  pure { peRed := toBYTE r, peGreen := toBYTE g, peBlue := toBYTE b, peFlags := 0 }

/-- A write to `lpPal->palPalEntry[i]`, inside the allocation or a fault. -/
def setEntry (es : List PALETTEENTRY) (i : Nat) (e : PALETTEENTRY) :
    Except Fault (List PALETTEENTRY) :=
  if i < es.length then .ok (es.set i e) else .error .writeOutOfBounds

/-- The call `GetSystemPaletteEntries(hDC, 0, n, &lpPal->palPalEntry[0])`: the
first `n` entries of the system palette `sys`, as many as it has, are copied
over the start of the array. -/
def GetSystemPaletteEntries (sys : List PALETTEENTRY) (n : Nat)
    (es : List PALETTEENTRY) : List PALETTEENTRY :=
  sys.take n ++ es.drop (sys.take n).length

/-- The loop `for (i = 0; i < n; ++i)` that fills the RGB ramp. -/
def rampLoop (pfd : PIXELFORMATDESCRIPTOR) (redMask greenMask blueMask n : Nat)
    (es : List PALETTEENTRY) : Except Fault (List PALETTEENTRY) :=
  (List.range n).foldlM
    (fun es i => do
      let e ← rampEntry pfd redMask greenMask blueMask i
      setEntry es i e)
    es

/-- The four assignments of the colour-index branch. -/
def indexColours (es : List PALETTEENTRY) : Except Fault (List PALETTEENTRY) := do
  let es ← setEntry es 0 { peRed := 0, peGreen := 0, peBlue := 0, peFlags := PC_NOCOLLAPSE }
  let es ← setEntry es 1 { peRed := 255, peGreen := 0, peBlue := 0, peFlags := PC_NOCOLLAPSE }
  let es ← setEntry es 2 { peRed := 0, peGreen := 255, peBlue := 0, peFlags := PC_NOCOLLAPSE }
  setEntry es 3 { peRed := 0, peGreen := 0, peBlue := 255, peFlags := PC_NOCOLLAPSE }

/-- The test `pfd.dwFlags & PFD_NEED_PALETTE || pfd.iPixelType ==
PFD_TYPE_COLORINDEX` of the source. -/
def needsPalette (pfd : PIXELFORMATDESCRIPTOR) : Bool :=
  pfd.dwFlags &&& PFD_NEED_PALETTE ≠ 0 || pfd.iPixelType = PFD_TYPE_COLORINDEX

/-- The logical palette that `CreateOpenGLWindow` builds inside its
`if (needs palette)` block, from the described pixel format `pfd` and the
system palette `sys`, up to the call of `CreatePalette`.  The allocation is
taken to succeed. -/
def buildLogPalette (pfd : PIXELFORMATDESCRIPTOR) (sys : List PALETTEENTRY) :
    Except Fault LOGPALETTE := do
  let n ← shl1 pfd.cColorBits
  let n := if n > 256 then 256 else n
  let es := List.replicate (n + 1) { peRed := 0, peGreen := 0, peBlue := 0, peFlags := 0 }
  let es := GetSystemPaletteEntries sys n es
  if pfd.iPixelType = PFD_TYPE_RGBA then
    let redMask ← channelMask pfd.cRedBits
    let greenMask ← channelMask pfd.cGreenBits
    let blueMask ← channelMask pfd.cBlueBits
    let es ← rampLoop pfd redMask greenMask blueMask n es
    pure { palVersion := 0x300, palNumEntries := n, palPalEntry := es }
  else
    let es ← indexColours es
    pure { palVersion := 0x300, palNumEntries := n, palPalEntry := es }

/-- What the platform answers during `CreateOpenGLWindow`. -/
structure WindowPlatform where
  /-- The result of `GetModuleHandle(NULL)`. -/
  moduleHandle : Nat
  /-- Whether `RegisterClass` succeeds. -/
  registerClass : Bool
  /-- The result of `CreateWindow`. -/
  createWindow : HWND
  /-- The result of `GetDC`. -/
  getDC : HDC
  /-- The result of `ChoosePixelFormat`. -/
  choosePixelFormat : Int
  /-- Whether `SetPixelFormat` succeeds. -/
  setPixelFormat : Bool
  /-- The descriptor `DescribePixelFormat` writes. -/
  describePixelFormat : PIXELFORMATDESCRIPTOR
  /-- The entries of the system palette. -/
  systemPalette : List PALETTEENTRY
  /-- The result of `CreatePalette`. -/
  createPalette : HPALETTE

/-- The function `CreateOpenGLWindow` of the source: the window handle
returned (`0` is `NULL`) and the state after the call. -/
def CreateOpenGLWindow (w : WindowPlatform) (title : String) (x y width height : Int)
    (type : Nat) (flags : Nat) (p : Program) : Except Fault (HWND × Program) := do
  let fresh : Bool := p.hInstance = 0
  let p :=
    if fresh then
      let p := emit .GetModuleHandle { p with hInstance := w.moduleHandle }
      let p := emit .LoadIcon p
      let p := emit .LoadCursor p
      emit (.RegisterClass "OpenGL") p
    else p
  if fresh && !w.registerClass then
    pure (0, emit (.MessageBox "RegisterClass() failed:  Cannot register window class." "Error") p)
  else
    let p := emit (.CreateWindow "OpenGL" title x y width height) p
    let hWnd := w.createWindow
    if hWnd = 0 then
      pure (0, emit (.MessageBox "CreateWindow() failed:  Cannot create a window." "Error") p)
    else
      let p := emit (.GetDC hWnd) { p with hDC := w.getDC }
      let pfd : PIXELFORMATDESCRIPTOR :=
        { dwFlags := PFD_DRAW_TO_WINDOW ||| PFD_SUPPORT_OPENGL ||| flags,
          iPixelType := type, cColorBits := 32,
          cRedBits := 0, cRedShift := 0, cGreenBits := 0, cGreenShift := 0,
          cBlueBits := 0, cBlueShift := 0 }
      let p := emit (.ChoosePixelFormat p.hDC pfd) p
      let pf := w.choosePixelFormat
      if pf = 0 then
        pure (0, emit (.MessageBox
          "ChoosePixelFormat() failed:  Cannot find a suitable pixel format." "Error") p)
      else
        let p := emit (.SetPixelFormat p.hDC pf pfd) p
        if !w.setPixelFormat then
          pure (0, emit (.MessageBox
            "SetPixelFormat() failed:  Cannot set format specified." "Error") p)
        else
          let p := emit (.DescribePixelFormat p.hDC pf) p
          let pfd := w.describePixelFormat
          if needsPalette pfd then
            let lpPal ← buildLogPalette pfd w.systemPalette
            let p := emit (.GetSystemPaletteEntries p.hDC 0 lpPal.palNumEntries) p
            let p := emit (.CreatePalette lpPal) { p with hPalette := w.createPalette }
            let p :=
              if p.hPalette ≠ 0 then
                emit (.RealizePalette p.hDC) (emit (.SelectPalette p.hDC p.hPalette FALSE) p)
              else p
            pure (hWnd, emit (.ReleaseDC hWnd p.hDC) p)
          else
            pure (hWnd, emit (.ReleaseDC hWnd p.hDC) p)

/-! ## main -/

/-- The outcome of the flag loop at the start of `main`: either `-h` was met
(the usage box is shown and `exit(0)` called), or the loop ran to its end with
these values of `buffer` and `color`. -/
inductive Flags where
  | help
  | proceed (buffer : Nat) (color : Nat)
  deriving DecidableEq, Repr

/-- The loop `for (int i = 1; i < argc; ++i)` of `main` over the arguments
`argv[i]` still to be read, with the current `buffer` and `color`. -/
def flagLoop : List String → Nat → Nat → Flags
  | [], buffer, color => .proceed buffer color
  | arg :: rest, buffer, color =>
    if arg = "-sb" then flagLoop rest 0 color
    else if arg = "-ci" then flagLoop rest buffer PFD_TYPE_COLORINDEX
    else if arg = "-h" then .help
    else flagLoop rest buffer color

/-- The flag parsing of `main`: the loop starts at `argv[1]`, with
`buffer = PFD_DOUBLEBUFFER` and `color = PFD_TYPE_RGBA`. -/
def parseFlags (argv : List String) : Flags :=
  flagLoop (argv.drop 1) PFD_DOUBLEBUFFER PFD_TYPE_RGBA

/-- The usage text of the help box. -/
def usage : String := "animate [-ci] [-sb]\n  -sb   single buffered\n  -ci   color index\n"

/-- One turn of the inner `while (PeekMessage(...))` of `main`, as the
platform answers it. -/
inductive Poll where
  /-- The call of `PeekMessage` returned 0: no message is pending. -/
  | idle
  /-- The call of `PeekMessage` returned non-zero, and the call of `GetMessage`
  that follows returned `result` (0 for `WM_QUIT`, -1 for an error, non-zero
  otherwise) with `msg` in the message buffer; `env` is what the platform
  answers while the message is dispatched. -/
  | message (env : Platform) (result : Int) (msg : MSG)

/-- The call `DispatchMessage(&msg)`: the platform calls the window procedure
of the window the message is for. -/
def DispatchMessage (env : Platform) (hWnd : HWND) (msg : MSG) (p : Program) : Program :=
  let p := emit (.DispatchMessage msg) p
  if msg.hwnd = hWnd then (WindowProc env hWnd msg.message msg.wParam msg.lParam p).2 else p

/-- Where control is in `main` after a run of the event loop: still inside
`while (1)`, or at the label `quit`. -/
inductive Control where
  | inLoop
  | atQuit
  deriving DecidableEq, Repr

/-- The event loop of `main` (`while (1) { while (PeekMessage) {...} display(); }`)
run against the answers `script` of the platform, one per call of
`PeekMessage`. -/
def eventLoop (hWnd : HWND) : List Poll → Program → Control × Program
  | [], p => (.inLoop, p)
  | .idle :: rest, p =>
    let p := emit (.PeekMessage hWnd) p
    eventLoop hWnd rest (display p)
  | .message env result msg :: rest, p =>
    let p := emit (.PeekMessage hWnd) p
    let p := emit (.GetMessage hWnd) p
    if result ≠ 0 then
      let p := emit (.TranslateMessage msg) p
      let p := DispatchMessage env hWnd msg p
      eventLoop hWnd rest p
    else
      (.atQuit, p)

/-- The statements of `main` after the label `quit`. -/
def teardown (hWnd : HWND) (hRC : Nat) (p : Program) : Program :=
  let p := emit (.wglMakeCurrent 0 0) p
  let p := emit (.ReleaseDC hWnd p.hDC) p
  let p := emit (.wglDeleteContext hRC) p
  let p := emit (.DestroyWindow hWnd) p
  if p.hPalette ≠ 0 then emit (.DeleteObject p.hPalette) p else p

/-- What the platform answers in `main` between window creation and the event
loop. -/
structure ContextPlatform where
  /-- The result of `GetDC(hWnd)`. -/
  getDC : HDC
  /-- The result of `wglCreateContext(hDC)`. -/
  createContext : Nat

/-- The part of `main` after the flag loop, for the values of `buffer` and
`color` the loop left: the exit status (`none` while the script of platform
answers ends with control still in the event loop) and the final state. -/
def mainRun (buffer color : Nat) (w : WindowPlatform) (c : ContextPlatform)
    (script : List Poll) (p : Program) : Except Fault (Option Int × Program) := do
  let (hWnd, p) ← CreateOpenGLWindow w "animate" 0 0 350 700 color buffer p
  if hWnd = 0 then
    pure (some 1, emit (.exit 1) p)
  else
    let p := emit (.GetDC hWnd) { p with hDC := c.getDC }
    let hRC := c.createContext
    let p := emit (.wglCreateContext p.hDC) p
    let p := emit (.wglMakeCurrent p.hDC hRC) p
    let p := emit (.ShowWindow hWnd) p
    let p := emit (.UpdateWindow hWnd) p
    let p := emit (.RegisterPowerSettingNotification hWnd) p
    match eventLoop hWnd script p with
    | (.inLoop, p) => pure (none, p)
    | (.atQuit, p) => pure (some 0, teardown hWnd hRC p)

/-- The function `main` of the source. -/
def main (argv : List String) (w : WindowPlatform) (c : ContextPlatform)
    (script : List Poll) (p : Program) : Except Fault (Option Int × Program) :=
  match parseFlags argv with
  | .help =>
    let p := emit (.MessageBox usage "Usage help") p
    pure (some 0, emit (.exit 0) p)
  | .proceed buffer color => mainRun buffer color w c script p

/-! ## Runs of the window procedure -/

/-- The flags `main` acts on. -/
def recognised (arg : String) : Bool :=
  arg = "-sb" || arg = "-ci" || arg = "-h"

/-- The four colours of the colour-index branch: black, pure red, pure green,
pure blue, each flagged `PC_NOCOLLAPSE`. -/
def fixedColours : List PALETTEENTRY :=
  [ { peRed := 0, peGreen := 0, peBlue := 0, peFlags := PC_NOCOLLAPSE },
    { peRed := 255, peGreen := 0, peBlue := 0, peFlags := PC_NOCOLLAPSE },
    { peRed := 0, peGreen := 255, peBlue := 0, peFlags := PC_NOCOLLAPSE },
    { peRed := 0, peGreen := 0, peBlue := 255, peFlags := PC_NOCOLLAPSE } ]

/-- The array of `n + 1` entries before either branch writes to it: zeroed by
`memset`, then overwritten from the start by `GetSystemPaletteEntries`. -/
def systemFill (sys : List PALETTEENTRY) (n : Nat) : List PALETTEENTRY :=
  GetSystemPaletteEntries sys n
    (List.replicate (n + 1) { peRed := 0, peGreen := 0, peBlue := 0, peFlags := 0 })

/-- The formula of the specification for one channel of ramp entry `i`:
`((i >> shift) & mask) * 255 / mask`, in exact integer arithmetic. -/
def rampFormula (i shift mask : Nat) : Nat :=
  ((i >>> shift) &&& mask) * 255 / mask

/-- The ramp entry `i` the specification's formula gives for the three masks:
each channel by `rampFormula`, flags 0. -/
def rampColour (pfd : PIXELFORMATDESCRIPTOR) (redMask greenMask blueMask i : Nat) :
    PALETTEENTRY :=
  { peRed := rampFormula i pfd.cRedShift redMask
    peGreen := rampFormula i pfd.cGreenShift greenMask
    peBlue := rampFormula i pfd.cBlueShift blueMask
    peFlags := 0 }

/-- The usual 8-bit RGBA format that needs a palette: 3 bits of red at shift
0, 3 bits of green at shift 3, 2 bits of blue at shift 6. -/
def rgb332 : PIXELFORMATDESCRIPTOR :=
  { dwFlags := PFD_DRAW_TO_WINDOW ||| PFD_SUPPORT_OPENGL ||| PFD_NEED_PALETTE,
    iPixelType := PFD_TYPE_RGBA, cColorBits := 8,
    cRedBits := 3, cRedShift := 0, cGreenBits := 3, cGreenShift := 3,
    cBlueBits := 2, cBlueShift := 6 }

/-- An 8-bit RGBA format that needs a palette and has no red channel: 4 bits
of green at shift 0, 4 bits of blue at shift 4. -/
def rgbNoRed : PIXELFORMATDESCRIPTOR :=
  { dwFlags := PFD_DRAW_TO_WINDOW ||| PFD_SUPPORT_OPENGL ||| PFD_NEED_PALETTE,
    iPixelType := PFD_TYPE_RGBA, cColorBits := 8,
    cRedBits := 0, cRedShift := 0, cGreenBits := 4, cGreenShift := 0,
    cBlueBits := 4, cBlueShift := 4 }

/-- A colour-index pixel format of depth 8. -/
def indexed8 : PIXELFORMATDESCRIPTOR :=
  { dwFlags := PFD_DRAW_TO_WINDOW ||| PFD_SUPPORT_OPENGL ||| PFD_DOUBLEBUFFER,
    iPixelType := PFD_TYPE_COLORINDEX, cColorBits := 8,
    cRedBits := 0, cRedShift := 0, cGreenBits := 0, cGreenShift := 0,
    cBlueBits := 0, cBlueShift := 0 }

/-- A pointer press for window 1. -/
def clickMsg : MSG := { hwnd := 1, message := WM_LBUTTONDOWN, wParam := 0, lParam := 0 }

/-- A platform for examples: the window is not iconic, `DefWindowProc`
returns 0, no power setting is reported. -/
def quietPlatform : Platform :=
  { isIconic := false
    defWindowProc := fun _ _ _ _ => 0
    powerSetting := fun _ => { isConsoleDisplayState := false, data := 0 }
    timestamp := "2024-01-01 00:00:00" }

/-- One message delivered to the window procedure, with the answers of the
platform while it is handled. -/
structure Delivery where
  env : Platform
  hWnd : HWND
  uMsg : UINT
  wParam : WPARAM
  lParam : LPARAM

/-- The state after `WindowProc` has handled one delivered message. -/
def deliver (d : Delivery) (p : Program) : Program :=
  (WindowProc d.env d.hWnd d.uMsg d.wParam d.lParam p).2

/-- The state after `WindowProc` has handled the messages of `ds` in order. -/
def deliverAll (ds : List Delivery) (p : Program) : Program :=
  ds.foldl (fun p d => deliver d p) p

/-- A `WM_CHAR` message whose character is Space, for any window handle, any
key data in `lParam` and any answers of the platform. -/
def spaceChar (x : Platform × HWND × LPARAM) : Delivery :=
  { env := x.1, hWnd := x.2.1, uMsg := WM_CHAR, wParam := 32, lParam := x.2.2 }

/-- Something that renders or handles a message: a pass of the main loop that
calls `display()`, or a message handled by `WindowProc` (a paint request
among them). -/
inductive Action where
  | frame
  | message (d : Delivery)

/-- The state after one action. -/
def act (a : Action) (p : Program) : Program :=
  match a with
  | .frame => display p
  | .message d => deliver d p

/-- The state after the actions of `as` in order. -/
def actAll (as : List Action) (p : Program) : Program :=
  as.foldl (fun p a => act a p) p

/-! ## Basic facts -/

@[simp] theorem emit_animate (c : Call) (p : Program) : (emit c p).animate = p.animate := rfl

@[simp] theorem emit_rotationAngle (c : Call) (p : Program) :
    (emit c p).rotationAngle = p.rotationAngle := rfl

@[simp] theorem emit_viewport (c : Call) (p : Program) : (emit c p).viewport = p.viewport := rfl

@[simp] theorem emit_hPalette (c : Call) (p : Program) : (emit c p).hPalette = p.hPalette := rfl

@[simp] theorem emit_hDC (c : Call) (p : Program) : (emit c p).hDC = p.hDC := rfl

@[simp] theorem emit_quitPosted (c : Call) (p : Program) :
    (emit c p).quitPosted = p.quitPosted := rfl

@[simp] theorem emit_calls (c : Call) (p : Program) : (emit c p).calls = p.calls ++ [c] := rfl

theorem display_rotationAngle (p : Program) :
    (display p).rotationAngle = p.rotationAngle + (if p.animate then rotationStep else 0) := by
  cases h : p.animate <;> simp [display, glRotatefZ, h]

theorem display_viewport (p : Program) : (display p).viewport = p.viewport := by
  cases h : p.animate <;> simp [display, glRotatefZ, h]

theorem display_animate (p : Program) : (display p).animate = p.animate := by
  cases h : p.animate <;> simp [display, glRotatefZ, h]

theorem rotationStep_pos : 0 < rotationStep := by
  norm_num [rotationStep]

theorem deliver_spaceChar_animate (x : Platform × HWND × LPARAM) (p : Program) :
    (deliver (spaceChar x) p).animate = !p.animate := by
  simp [deliver, spaceChar, WindowProc, WM_CHAR, WM_PAINT, WM_SIZE]

theorem deliver_rotationAngle (d : Delivery) (p : Program) :
    (deliver d p).rotationAngle
      = p.rotationAngle + (if d.uMsg = WM_PAINT ∧ p.animate = true then rotationStep else 0) := by
  unfold deliver WindowProc
  by_cases h1 : d.uMsg = WM_PAINT
  · simp [h1, display_rotationAngle]
  · simp only [h1, if_false, false_and, add_zero]
    repeat' split
    all_goals simp [glViewport, PostQuitMessage]

theorem act_rotationAngle_le (a : Action) (p : Program) :
    p.rotationAngle ≤ (act a p).rotationAngle := by
  have hs := rotationStep_pos
  cases a with
  | frame =>
    simp only [act, display_rotationAngle]
    split <;> linarith
  | message d =>
    simp only [act, deliver_rotationAngle]
    split <;> linarith

theorem actAll_rotationAngle_le (as : List Action) (p : Program) :
    p.rotationAngle ≤ (actAll as p).rotationAngle := by
  induction as generalizing p with
  | nil => simp [actAll]
  | cons a as ih =>
    have h1 := act_rotationAngle_le a p
    have h2 := ih (act a p)
    simp only [actAll, List.foldl_cons] at h2 ⊢
    exact le_trans h1 h2

theorem actAll_append (as bs : List Action) (p : Program) :
    actAll (as ++ bs) p = actAll bs (actAll as p) := by
  simp [actAll, List.foldl_append]

/-! ## The animating flag -/

/-- Claim C1.  Whatever the animating flag is at the start, after `WindowProc`
has handled `N` consecutive `WM_CHAR` messages whose character is Space the
flag is its initial value when `N` is even and the negation of it when `N` is
odd. -/
theorem space_presses_toggle (xs : List (Platform × HWND × LPARAM)) (p : Program) :
    (deliverAll (xs.map spaceChar) p).animate
      = if xs.length % 2 = 0 then p.animate else !p.animate := by
  induction xs generalizing p with
  | nil => simp [deliverAll]
  | cons x xs ih =>
    have h := ih (deliver (spaceChar x) p)
    simp only [deliverAll, List.map_cons, List.foldl_cons] at h ⊢
    rw [h, deliver_spaceChar_animate, List.length_cons]
    rcases Nat.mod_two_eq_zero_or_one xs.length with h0 | h1
    · have : (xs.length + 1) % 2 = 1 := by omega
      simp [h0, this]
    · have : (xs.length + 1) % 2 = 0 := by omega
      simp [h1, this]

/-- Claim C2.  On `WM_ACTIVATE` the window procedure returns 0 and leaves the
animating flag false when the window is iconic and true when it is not,
whatever the flag was before. -/
theorem activate_sets_flag (env : Platform) (hWnd : HWND) (wParam : WPARAM)
    (lParam : LPARAM) (p : Program) :
    (WindowProc env hWnd WM_ACTIVATE wParam lParam p).1 = 0
      ∧ (WindowProc env hWnd WM_ACTIVATE wParam lParam p).2.animate = !env.isIconic
      ∧ ∀ b : Bool,
          (WindowProc env hWnd WM_ACTIVATE wParam lParam { p with animate := b }).2.animate
            = !env.isIconic := by
  refine ⟨?_, ?_, ?_⟩
  · simp [WindowProc, WM_ACTIVATE, WM_PAINT, WM_SIZE, WM_CHAR]
  · cases h : env.isIconic <;> simp [WindowProc, WM_ACTIVATE, WM_PAINT, WM_SIZE, WM_CHAR, h]
  · intro b
    cases h : env.isIconic <;> simp [WindowProc, WM_ACTIVATE, WM_PAINT, WM_SIZE, WM_CHAR, h]

/-- Claim C3.  In every state (any flag, palette or none, quit already
requested or not) the window procedure, on a `WM_CHAR` whose character is
Escape and on `WM_CLOSE` alike, makes exactly one platform call,
`PostQuitMessage(0)`, returns 0, and leaves the process in the state
`Quitting`. -/
theorem escape_and_close_quit (env : Platform) (hWnd : HWND) (wParam : WPARAM)
    (lParam : LPARAM) (p : Program) :
    ((WindowProc env hWnd WM_CHAR 27 lParam p).1 = 0
      ∧ (WindowProc env hWnd WM_CHAR 27 lParam p).2.calls = p.calls ++ [.PostQuitMessage 0]
      ∧ (WindowProc env hWnd WM_CHAR 27 lParam p).2.processState = .Quitting)
    ∧ ((WindowProc env hWnd WM_CLOSE wParam lParam p).1 = 0
      ∧ (WindowProc env hWnd WM_CLOSE wParam lParam p).2.calls = p.calls ++ [.PostQuitMessage 0]
      ∧ (WindowProc env hWnd WM_CLOSE wParam lParam p).2.processState = .Quitting) := by
  refine ⟨⟨?_, ?_, ?_⟩, ⟨?_, ?_, ?_⟩⟩ <;>
    simp [WindowProc, PostQuitMessage, Program.processState, WM_CHAR, WM_CLOSE, WM_PAINT,
      WM_SIZE, WM_ACTIVATE, WM_PALETTECHANGED, WM_QUERYNEWPALETTE, WM_POWERBROADCAST,
      WM_LBUTTONDOWN]

/-! ## The rotation angle -/

/-- Claim C4 fails at the first frame of the program: the angle goes from 0 to
the value of `0.01f`, which is `5368709 / 536870912` and not `0.01`. -/
theorem first_frame_step_is_not_one_hundredth :
    (Program.init ⟨0, 0, 0, 0⟩).animate = true
      ∧ (Program.init ⟨0, 0, 0, 0⟩).rotationAngle = 0
      ∧ (display (Program.init ⟨0, 0, 0, 0⟩)).rotationAngle = 5368709 / 536870912
      ∧ (display (Program.init ⟨0, 0, 0, 0⟩)).rotationAngle
          ≠ (Program.init ⟨0, 0, 0, 0⟩).rotationAngle + 1 / 100 := by
  refine ⟨rfl, rfl, ?_, ?_⟩
  · rw [display_rotationAngle]
    norm_num [Program.init, rotationStep]
  · rw [display_rotationAngle]
    norm_num [Program.init, rotationStep]

/-- Claim C4, as the code has it.  The step is the value of the `float` literal
`0.01f`, that is `5368709 / 536870912` degrees, less than `0.01` by under
`10^(-9)`.  A frame rendered while the animating flag is true adds exactly
this step to the accumulated rotation angle (the sum of the angles passed to
`glRotatef`) and a frame rendered while it is false leaves the angle
unchanged, for a frame of the main loop and for one drawn on a paint request;
a message other than a paint request does not change the angle; so over every
sequence of frames and messages the angle never decreases. -/
theorem rotation_angle_monotone :
    (rotationStep = 5368709 / 536870912
        ∧ 1 / 100 - 1 / 1000000000 < rotationStep ∧ rotationStep < 1 / 100)
      ∧ (∀ p : Program,
          (display p).rotationAngle = p.rotationAngle + (if p.animate then rotationStep else 0))
      ∧ (∀ (d : Delivery) (p : Program),
          (deliver d p).rotationAngle
            = p.rotationAngle
              + (if d.uMsg = WM_PAINT ∧ p.animate = true then rotationStep else 0))
      ∧ (∀ (as bs : List Action) (p : Program),
          (actAll as p).rotationAngle ≤ (actAll (as ++ bs) p).rotationAngle) := by
  refine ⟨⟨rfl, by norm_num [rotationStep], by norm_num [rotationStep]⟩,
    display_rotationAngle, deliver_rotationAngle, ?_⟩
  intro as bs p
  rw [actAll_append]
  exact actAll_rotationAngle_le bs (actAll as p)

/-! ## Resizing -/

/-- Claim C5.  For `W` and `H` in 0..65535 and an `lParam` whose low 32 bits
are `W` in bits 0..15 and `H` in bits 16..31 (which, with `W < 65536`, leaves
only `H < 65536`), the window procedure on
`WM_SIZE` calls `glViewport(0, 0, W, H)`, posts `WM_PAINT` to the window and
returns 0; the viewport is then `(0, 0, W, H)`, and it still is after the
paint request that follows has drawn its frame. -/
theorem resize_sets_viewport (env : Platform) (hWnd : HWND) (wParam : WPARAM)
    (lParam : Int) (W H : Nat) (p : Program)
    (hW : W < 65536)
    (hl : lParam % 4294967296 = (W : Int) + 65536 * (H : Int)) :
    (WindowProc env hWnd WM_SIZE wParam lParam p).1 = 0
      ∧ (WindowProc env hWnd WM_SIZE wParam lParam p).2.calls
          = p.calls ++ [.glViewport 0 0 W H, .PostMessage hWnd WM_PAINT 0 0]
      ∧ (WindowProc env hWnd WM_SIZE wParam lParam p).2.viewport = ⟨0, 0, W, H⟩
      ∧ ∀ (env2 : Platform) (wParam2 : WPARAM) (lParam2 : LPARAM),
          (WindowProc env2 hWnd WM_PAINT wParam2 lParam2
            (WindowProc env hWnd WM_SIZE wParam lParam p).2).2.viewport = ⟨0, 0, W, H⟩ := by
  have hlo : LOWORD lParam = (W : Int) := by
    unfold LOWORD
    omega
  have hhi : HIWORD lParam = (H : Int) := by
    unfold HIWORD
    omega
  have hsize : (WindowProc env hWnd WM_SIZE wParam lParam p).2
      = emit (.PostMessage hWnd WM_PAINT 0 0) (glViewport 0 0 W H p) := by
    simp [WindowProc, WM_SIZE, WM_PAINT, hlo, hhi]
  refine ⟨?_, ?_, ?_, ?_⟩
  · simp [WindowProc, WM_SIZE, WM_PAINT]
  · rw [hsize]
    simp [glViewport]
  · rw [hsize]
    simp [glViewport]
  · intro env2 wParam2 lParam2
    rw [hsize]
    simp [WindowProc, display_viewport, glViewport]

/-- Claim C5 at a resize to 350 by 700 at program start. -/
theorem resize_sets_viewport_witness :
    350 < 65536
      ∧ (WindowProc quietPlatform 1 WM_SIZE 0 (MAKELPARAM 350 700)
          (Program.init ⟨0, 0, 0, 0⟩)).2.viewport = ⟨0, 0, 350, 700⟩ :=
  ⟨by decide,
    (resize_sets_viewport quietPlatform 1 0 (MAKELPARAM 350 700) 350 700
      (Program.init ⟨0, 0, 0, 0⟩) (by decide) (by decide)).2.2.1⟩

/-! ## The flags of main -/

theorem flagLoop_eq (args : List String) (buffer color : Nat) :
    flagLoop args buffer color
      = if "-h" ∈ args then Flags.help
        else Flags.proceed (if "-sb" ∈ args then 0 else buffer)
          (if "-ci" ∈ args then PFD_TYPE_COLORINDEX else color) := by
  induction args generalizing buffer color with
  | nil => simp [flagLoop]
  | cons a rest ih =>
    simp only [flagLoop, List.mem_cons]
    by_cases h1 : a = "-sb"
    · subst h1
      rw [if_pos rfl, ih]
      by_cases hh : "-h" ∈ rest <;> simp [hh]
    · by_cases h2 : a = "-ci"
      · subst h2
        rw [if_neg h1, if_pos rfl, ih]
        by_cases hh : "-h" ∈ rest <;> simp [hh]
      · by_cases h3 : a = "-h"
        · subst h3
          simp
        · rw [if_neg h1, if_neg h2, if_neg h3, ih]
          have e1 : ¬ "-sb" = a := fun h => h1 h.symm
          have e2 : ¬ "-ci" = a := fun h => h2 h.symm
          have e3 : ¬ "-h" = a := fun h => h3 h.symm
          simp [e1, e2, e3]

theorem flagLoop_filter (args : List String) (buffer color : Nat) :
    flagLoop (args.filter recognised) buffer color = flagLoop args buffer color := by
  rw [flagLoop_eq, flagLoop_eq]
  simp [List.mem_filter, recognised]

/-- Claim C6.  For every `argv`, with the arguments being `argv[1..]`: the flag
loop of `main` ends in the help exit exactly when some argument is `-h`, and
`main` then shows the usage box and calls `exit(0)` with no other platform
call (no window is created); otherwise `main` goes on with `buffer = 0`
(single-buffered) exactly when some argument is `-sb`, else
`PFD_DOUBLEBUFFER`, and with `color = PFD_TYPE_COLORINDEX` exactly when some
argument is `-ci`, else `PFD_TYPE_RGBA`.  Arguments other than these three
have no effect: dropping them changes nothing, and `-xyz` alone behaves as no
argument. -/
theorem flags_outcome (argv : List String) (w : WindowPlatform) (c : ContextPlatform)
    (script : List Poll) (p : Program) :
    parseFlags argv
        = (if "-h" ∈ argv.drop 1 then Flags.help
           else Flags.proceed (if "-sb" ∈ argv.drop 1 then 0 else PFD_DOUBLEBUFFER)
             (if "-ci" ∈ argv.drop 1 then PFD_TYPE_COLORINDEX else PFD_TYPE_RGBA))
      ∧ main argv w c script p
        = (if "-h" ∈ argv.drop 1 then
            .ok (some 0, { p with calls := p.calls ++ [.MessageBox usage "Usage help", .exit 0] })
           else mainRun (if "-sb" ∈ argv.drop 1 then 0 else PFD_DOUBLEBUFFER)
             (if "-ci" ∈ argv.drop 1 then PFD_TYPE_COLORINDEX else PFD_TYPE_RGBA) w c script p)
      ∧ main (argv.take 1 ++ (argv.drop 1).filter recognised) w c script p
        = main argv w c script p
      ∧ main ["animate", "-xyz"] w c script p = main ["animate"] w c script p
      ∧ main ["animate"] w c script p = mainRun PFD_DOUBLEBUFFER PFD_TYPE_RGBA w c script p := by
  have hp : parseFlags argv
        = (if "-h" ∈ argv.drop 1 then Flags.help
           else Flags.proceed (if "-sb" ∈ argv.drop 1 then 0 else PFD_DOUBLEBUFFER)
             (if "-ci" ∈ argv.drop 1 then PFD_TYPE_COLORINDEX else PFD_TYPE_RGBA)) := by
    unfold parseFlags
    exact flagLoop_eq _ _ _
  have hf : parseFlags (argv.take 1 ++ (argv.drop 1).filter recognised) = parseFlags argv := by
    unfold parseFlags
    cases argv with
    | nil => simp
    | cons prog args =>
      simp only [List.take_succ_cons, List.take_zero, List.singleton_append, List.drop_succ_cons,
        List.drop_zero]
      exact flagLoop_filter _ _ _
  refine ⟨hp, ?_, ?_, ?_, ?_⟩
  · unfold main
    rw [hp]
    by_cases hh : "-h" ∈ argv.drop 1
    · simp only [hh, if_true]
      simp [emit, pure, Except.pure]
    · simp only [hh, if_false]
  · unfold main
    rw [hf]
  · rfl
  · rfl

/-! ## The event loop and a failing GetMessage -/

/-- Claim C7 fails at program start when `GetMessage` answers -1 with a pointer
press for window 1 in the message buffer: the loop translates and dispatches the buffer (the
window procedure logs the click) and control stays inside the loop; on the
next pass, with no message pending, it renders a frame, which advances the
rotation. -/
theorem getmessage_error_keeps_running :
    (eventLoop 1 [.message quietPlatform (-1) clickMsg] (Program.init ⟨0, 0, 0, 0⟩)).1
        = Control.inLoop
      ∧ (eventLoop 1 [.message quietPlatform (-1) clickMsg] (Program.init ⟨0, 0, 0, 0⟩)).2.calls
        = [.PeekMessage 1, .GetMessage 1, .TranslateMessage clickMsg, .DispatchMessage clickMsg,
            .cout "2024-01-01 00:00:00 Mouse click"]
      ∧ (eventLoop 1 [.message quietPlatform (-1) clickMsg, .idle]
          (Program.init ⟨0, 0, 0, 0⟩)).1 = Control.inLoop
      ∧ (eventLoop 1 [.message quietPlatform (-1) clickMsg, .idle]
          (Program.init ⟨0, 0, 0, 0⟩)).2.rotationAngle = 5368709 / 536870912 := by
  refine ⟨?_, ?_, ?_, ?_⟩
  · simp [eventLoop]
  · simp [eventLoop, DispatchMessage, WindowProc, clickMsg, quietPlatform, Program.init,
      WM_LBUTTONDOWN, WM_PAINT, WM_SIZE, WM_CHAR, WM_ACTIVATE, WM_PALETTECHANGED,
      WM_QUERYNEWPALETTE, WM_POWERBROADCAST]
  · simp [eventLoop]
  · simp [eventLoop, DispatchMessage, WindowProc, clickMsg, quietPlatform, Program.init,
      WM_LBUTTONDOWN, WM_PAINT, WM_SIZE, WM_CHAR, WM_ACTIVATE, WM_PALETTECHANGED,
      WM_QUERYNEWPALETTE, WM_POWERBROADCAST, display_rotationAngle, rotationStep]

theorem eventLoop_message (hWnd : HWND) (env : Platform) (result : Int) (msg : MSG)
    (rest : List Poll) (p : Program) :
    eventLoop hWnd (.message env result msg :: rest) p
      = if result = 0 then
          (Control.atQuit, { p with calls := p.calls ++ [.PeekMessage hWnd, .GetMessage hWnd] })
        else
          eventLoop hWnd rest
            (DispatchMessage env hWnd msg
              { p with calls := p.calls
                  ++ [.PeekMessage hWnd, .GetMessage hWnd, .TranslateMessage msg] }) := by
  by_cases h : result = 0 <;> simp [eventLoop, emit, h]

theorem eventLoop_idle (hWnd : HWND) (rest : List Poll) (p : Program) :
    eventLoop hWnd (.idle :: rest) p
      = eventLoop hWnd rest (display { p with calls := p.calls ++ [.PeekMessage hWnd] }) := by
  simp [eventLoop, emit]

theorem eventLoop_atQuit_iff (hWnd : HWND) (script : List Poll) (p : Program) :
    (eventLoop hWnd script p).1 = Control.atQuit
      ↔ ∃ (env : Platform) (msg : MSG), Poll.message env 0 msg ∈ script := by
  induction script generalizing p with
  | nil => simp [eventLoop]
  | cons poll rest ih =>
    cases poll with
    | idle =>
      rw [eventLoop_idle, ih]
      simp
    | message env result msg =>
      rw [eventLoop_message]
      by_cases h : result = 0
      · subst h
        simp only [if_true, true_iff]
        exact ⟨env, msg, List.mem_cons_self _ _⟩
      · rw [if_neg h, ih]
        constructor
        · rintro ⟨e, m, hm⟩
          exact ⟨e, m, List.mem_cons_of_mem _ hm⟩
        · rintro ⟨e, m, hm⟩
          rcases List.mem_cons.mp hm with heq | hm
          · injection heq with _ h0 _
            exact absurd h0.symm h
          · exact ⟨e, m, hm⟩

/-- Claim C7, as the code has it.  On every result of `GetMessage` the event
loop takes one of two branches.  On 0 it leaves `while (1)`: control is at the
label `quit` with nothing translated, dispatched or rendered after the call
and the rest of the platform's answers unread.  On every other result, the
error value -1 included, the message buffer is translated and dispatched and
the loop goes on.  A pass with no message pending renders a frame and goes
on.  So, over every run, control reaches `quit` exactly when some call of
`GetMessage` has returned 0. -/
theorem event_loop_leaves_on_zero (hWnd : HWND) (env : Platform) (result : Int) (msg : MSG)
    (script rest : List Poll) (p : Program) :
    eventLoop hWnd (.message env result msg :: rest) p
        = (if result = 0 then
            (Control.atQuit,
              { p with calls := p.calls ++ [.PeekMessage hWnd, .GetMessage hWnd] })
           else
            eventLoop hWnd rest
              (DispatchMessage env hWnd msg
                { p with calls := p.calls
                    ++ [.PeekMessage hWnd, .GetMessage hWnd, .TranslateMessage msg] }))
      ∧ eventLoop hWnd (.message env (-1) msg :: rest) p
        = eventLoop hWnd rest
            (DispatchMessage env hWnd msg
              { p with calls := p.calls
                  ++ [.PeekMessage hWnd, .GetMessage hWnd, .TranslateMessage msg] })
      ∧ eventLoop hWnd (.idle :: rest) p
        = eventLoop hWnd rest (display { p with calls := p.calls ++ [.PeekMessage hWnd] })
      ∧ ((eventLoop hWnd script p).1 = Control.atQuit
          ↔ ∃ (env2 : Platform) (msg2 : MSG), Poll.message env2 0 msg2 ∈ script) := by
  refine ⟨eventLoop_message hWnd env result msg rest p, ?_, eventLoop_idle hWnd rest p,
    eventLoop_atQuit_iff hWnd script p⟩
  rw [eventLoop_message]
  simp

/-! ## Palette messages -/

theorem toLONG_of_fits (v : Int) (hlo : -2147483648 ≤ v) (hhi : v < 2147483648) :
    toLONG v = v := by
  show ((v + 2147483648) % 4294967296 - 2147483648 : Int) = v
  omega

theorem toLONG_range (v : Int) : -2147483648 ≤ toLONG v ∧ toLONG v < 2147483648 := by
  show (-2147483648 : Int) ≤ (v + 2147483648) % 4294967296 - 2147483648
    ∧ ((v + 2147483648) % 4294967296 - 2147483648 : Int) < 2147483648
  omega

/-- Claim C8 fails when, with a custom palette (handle 5) in place, window 1
receives `WM_PALETTECHANGED` with `wParam` equal to its own handle: the only platform
call is `DefWindowProc`, whose result (here 0, not `TRUE`) is returned; the
palette is not realized again. -/
theorem self_palette_change_not_realized :
    WindowProc quietPlatform 1 WM_PALETTECHANGED 1 0
        { Program.init ⟨0, 0, 0, 0⟩ with hPalette := 5 }
      = (0, { Program.init ⟨0, 0, 0, 0⟩ with
                hPalette := 5, calls := [.DefWindowProc 1 WM_PALETTECHANGED 1 0] }) := by
  simp [WindowProc, quietPlatform, Program.init, emit, toLONG, WM_PALETTECHANGED, WM_PAINT,
    WM_SIZE, WM_CHAR, WM_ACTIVATE]

/-- Claim C8, as the code has it.  On `WM_QUERYNEWPALETTE` the window procedure
realizes the palette again (`UnrealizeObject`, `SelectPalette`,
`RealizePalette`) and returns `TRUE` when a custom palette exists, and makes
no call and returns `FALSE` when none exists.  On `WM_PALETTECHANGED` it does
the same when the change comes from another window (`wParam` is not the
window handle); when the change comes from this window it only calls
`DefWindowProc` and returns its result, converted to `LONG`. -/
theorem palette_messages (env : Platform) (hWnd : HWND) (wParam : WPARAM) (lParam : LPARAM)
    (p : Program) :
    WindowProc env hWnd WM_QUERYNEWPALETTE wParam lParam p
        = (if p.hPalette ≠ 0 then
            (TRUE, { p with calls := p.calls ++ [.UnrealizeObject p.hPalette,
                      .SelectPalette p.hDC p.hPalette FALSE, .RealizePalette p.hDC] })
           else (FALSE, p))
      ∧ WindowProc env hWnd WM_PALETTECHANGED wParam lParam p
        = (if hWnd = wParam then
            (toLONG (env.defWindowProc hWnd WM_PALETTECHANGED wParam lParam),
              { p with calls := p.calls ++ [.DefWindowProc hWnd WM_PALETTECHANGED wParam lParam] })
           else WindowProc env hWnd WM_QUERYNEWPALETTE wParam lParam p) := by
  constructor
  · by_cases h : p.hPalette = 0 <;>
      simp [WindowProc, emit, h, WM_QUERYNEWPALETTE, WM_PALETTECHANGED, WM_PAINT, WM_SIZE,
        WM_CHAR, WM_ACTIVATE]
  · by_cases h : hWnd = wParam <;>
      simp [WindowProc, emit, h, WM_QUERYNEWPALETTE, WM_PALETTECHANGED, WM_PAINT, WM_SIZE,
        WM_CHAR, WM_ACTIVATE]

/-! ## The palette table -/

theorem length_GetSystemPaletteEntries (sys es : List PALETTEENTRY) (n : Nat)
    (h : es.length = n + 1) : (GetSystemPaletteEntries sys n es).length = n + 1 := by
  simp only [GetSystemPaletteEntries, List.length_append, List.length_take, List.length_drop]
  omega

theorem entryCount_eq (c : Nat) :
    (if 2 ^ c > 256 then 256 else 2 ^ c) = min (2 ^ c) 256 := by
  split <;> omega

theorem four_le_entryCount (c : Nat) (h : 2 ≤ c) : 4 ≤ min (2 ^ c) 256 := by
  have h4 : 2 ^ 2 ≤ 2 ^ c := Nat.pow_le_pow_right (by decide) h
  have : (2 : Nat) ^ 2 = 4 := by decide
  omega

theorem indexColours_ok (es : List PALETTEENTRY) (h : 4 ≤ es.length) :
    indexColours es = .ok (fixedColours ++ es.drop 4) := by
  match es, h with
  | a :: b :: c :: d :: rest, _ =>
    simp [indexColours, setEntry, fixedColours, bind, Except.bind]

theorem buildLogPalette_index (pfd : PIXELFORMATDESCRIPTOR) (sys : List PALETTEENTRY)
    (hidx : pfd.iPixelType = PFD_TYPE_COLORINDEX) (hlo : 2 ≤ pfd.cColorBits)
    (hhi : pfd.cColorBits ≤ 30) :
    buildLogPalette pfd sys
      = .ok { palVersion := 0x300, palNumEntries := min (2 ^ pfd.cColorBits) 256,
              palPalEntry := fixedColours
                ++ (systemFill sys (min (2 ^ pfd.cColorBits) 256)).drop 4 } := by
  have hn := four_le_entryCount pfd.cColorBits hlo
  have hlen := length_GetSystemPaletteEntries sys
    (List.replicate (min (2 ^ pfd.cColorBits) 256 + 1)
      { peRed := 0, peGreen := 0, peBlue := 0, peFlags := 0 })
    (min (2 ^ pfd.cColorBits) 256) (List.length_replicate _ _)
  have hc : pfd.cColorBits < 31 := by omega
  have hne : ¬ pfd.iPixelType = PFD_TYPE_RGBA := by
    rw [hidx]
    decide
  simp only [buildLogPalette, shl1, hc, if_true, bind, Except.bind, entryCount_eq, hne, if_false]
  rw [indexColours_ok _ (by rw [hlen]; omega)]
  rfl

theorem length_systemFill (sys : List PALETTEENTRY) (n : Nat) :
    (systemFill sys n).length = n + 1 :=
  length_GetSystemPaletteEntries sys _ _ (List.length_replicate _ _)

theorem length_index_table (sys : List PALETTEENTRY) (n : Nat) (hn : 4 ≤ n) :
    ((fixedColours ++ (systemFill sys n).drop 4).take n).length = n := by
  have hfixed : fixedColours.length = 4 := rfl
  simp only [List.length_take, List.length_append, List.length_drop, length_systemFill, hfixed]
  omega

/-- Claim C9 fails for a colour-index pixel format of depth 8, the depth of a
256-colour display: the palette table has 256 entries, not 4 (with an empty system palette, the
four colours and 252 zero entries). -/
theorem index_palette_depth8_has_256 :
    needsPalette indexed8 = true
      ∧ indexed8.iPixelType = PFD_TYPE_COLORINDEX
      ∧ ∃ lp, buildLogPalette indexed8 [] = .ok lp
          ∧ lp.palNumEntries = 256
          ∧ lp.table.length = 256
          ∧ lp.table ≠ fixedColours := by
  have hlen := length_index_table [] 256 (by decide)
  refine ⟨by decide, rfl, _, buildLogPalette_index indexed8 [] rfl (by decide) (by decide),
    by decide, hlen, ?_⟩
  intro h
  have hl := congrArg List.length h
  have h4 : fixedColours.length = 4 := rfl
  have h256 : (LOGPALETTE.table
      { palVersion := 0x300, palNumEntries := min (2 ^ indexed8.cColorBits) 256,
        palPalEntry := fixedColours
          ++ (systemFill [] (min (2 ^ indexed8.cColorBits) 256)).drop 4 }).length = 256 := hlen
  omega

/-- A colour-index pixel format of depth 1: the table has 2 entries and the
allocation room for 3, so the write to `palPalEntry[3]` is out of bounds. -/
theorem index_palette_depth1_faults :
    buildLogPalette { indexed8 with cColorBits := 1 } [] = .error .writeOutOfBounds := by
  rfl

/-- Claim C9, as the code has it.  For a colour-index pixel format of depth `c`
with `2 ≤ c ≤ 30` the palette table has `min (2^c) 256` entries (4 exactly
when `c = 2`); its first four are black, pure red, pure green and pure blue,
each flagged `PC_NOCOLLAPSE`, all four written inside the table; the entries
from index 4 on are what `GetSystemPaletteEntries` left there. -/
theorem index_palette_table (pfd : PIXELFORMATDESCRIPTOR) (sys : List PALETTEENTRY)
    (hidx : pfd.iPixelType = PFD_TYPE_COLORINDEX) (hlo : 2 ≤ pfd.cColorBits)
    (hhi : pfd.cColorBits ≤ 30) :
    ∃ lp, buildLogPalette pfd sys = .ok lp
      ∧ lp.palNumEntries = min (2 ^ pfd.cColorBits) 256
      ∧ lp.table.length = min (2 ^ pfd.cColorBits) 256
      ∧ lp.table.take 4 = fixedColours
      ∧ lp.table.drop 4
          = ((systemFill sys (min (2 ^ pfd.cColorBits) 256)).take
              (min (2 ^ pfd.cColorBits) 256)).drop 4
      ∧ (lp.table.length = 4 ↔ pfd.cColorBits = 2) := by
  have hn := four_le_entryCount pfd.cColorBits hlo
  have hfixed : fixedColours.length = 4 := rfl
  have hlen := length_index_table sys (min (2 ^ pfd.cColorBits) 256) hn
  refine ⟨_, buildLogPalette_index pfd sys hidx hlo hhi, rfl, hlen, ?_, ?_, ?_⟩
  · simp only [LOGPALETTE.table]
    rw [List.take_take, Nat.min_eq_left hn, ← hfixed, List.take_left]
  · simp only [LOGPALETTE.table]
    rw [List.drop_take, List.drop_take, ← hfixed, List.drop_left]
  · simp only [LOGPALETTE.table]
    rw [hlen]
    constructor
    · intro h
      by_contra hne
      have h3 : 3 ≤ pfd.cColorBits := by omega
      have h8 : 2 ^ 3 ≤ 2 ^ pfd.cColorBits := Nat.pow_le_pow_right (by decide) h3
      have : (2 : Nat) ^ 3 = 8 := by decide
      omega
    · intro h
      rw [h]
      decide

/-- Claim C9, as the code has it, at the colour-index format of depth 4 (16
colours) with an empty system palette. -/
theorem index_palette_table_witness :
    ∃ lp, buildLogPalette { indexed8 with cColorBits := 4 } [] = .ok lp
      ∧ lp.palNumEntries = min (2 ^ 4) 256
      ∧ lp.table.length = min (2 ^ 4) 256
      ∧ lp.table.take 4 = fixedColours
      ∧ lp.table.drop 4 = ((systemFill [] (min (2 ^ 4) 256)).take (min (2 ^ 4) 256)).drop 4
      ∧ (lp.table.length = 4 ↔ 4 = 2) :=
  index_palette_table { indexed8 with cColorBits := 4 } [] rfl (by decide) (by decide)

/-! ## The RGB ramp -/

theorem channelMask_ok (bits : Nat) (h : bits ≤ 30) : channelMask bits = .ok (2 ^ bits - 1) := by
  have h31 : bits < 31 := by omega
  simp [channelMask, shl1, h31, bind, Except.bind, pure, Except.pure]

theorem mask_pos (bits : Nat) (h : 1 ≤ bits) : 2 ^ bits - 1 ≠ 0 := by
  have h2 : 2 ^ 1 ≤ 2 ^ bits := Nat.pow_le_pow_right (by decide) h
  have : (2 : Nat) ^ 1 = 2 := by decide
  omega

theorem rampChannel_ok (i shift mask : Nat) (hs : shift < 32) (hm : mask ≠ 0) :
    rampChannel i shift mask = .ok (rampFormula i shift mask) := by
  simp [rampChannel, shr, idiv, rampFormula, hs, hm, bind, Except.bind]

theorem rampFormula_le (i shift mask : Nat) : rampFormula i shift mask ≤ 255 := by
  unfold rampFormula
  apply Nat.div_le_of_le_mul
  exact Nat.mul_le_mul_right 255 Nat.and_le_right

theorem rampEntry_ok (pfd : PIXELFORMATDESCRIPTOR) (rm gm bm i : Nat)
    (hrs : pfd.cRedShift < 32) (hgs : pfd.cGreenShift < 32) (hbs : pfd.cBlueShift < 32)
    (hr : rm ≠ 0) (hg : gm ≠ 0) (hb : bm ≠ 0) :
    rampEntry pfd rm gm bm i = .ok (rampColour pfd rm gm bm i) := by
  have e : ∀ v, v ≤ 255 → toBYTE v = v := by
    intro v hv
    unfold toBYTE
    omega
  simp [rampEntry, rampColour, rampChannel_ok, hrs, hgs, hbs, hr, hg, hb, bind, Except.bind,
    pure, Except.pure, e _ (rampFormula_le _ _ _)]

theorem rampLoop_prefix (pfd : PIXELFORMATDESCRIPTOR) (rm gm bm : Nat)
    (hrs : pfd.cRedShift < 32) (hgs : pfd.cGreenShift < 32) (hbs : pfd.cBlueShift < 32)
    (hr : rm ≠ 0) (hg : gm ≠ 0) (hb : bm ≠ 0) (es : List PALETTEENTRY) :
    ∀ k, k ≤ es.length →
      rampLoop pfd rm gm bm k es
        = .ok ((List.range k).map (rampColour pfd rm gm bm) ++ es.drop k) := by
  intro k
  induction k with
  | zero =>
    intro _
    simp [rampLoop, pure, Except.pure]
  | succ k ih =>
    intro hk
    have hk2 : k < es.length := by omega
    have ihk := ih (by omega)
    unfold rampLoop at ihk ⊢
    rw [List.range_succ, List.foldlM_append, ihk]
    have hlen : ((List.range k).map (rampColour pfd rm gm bm)).length = k := by simp
    have hset : setEntry ((List.range k).map (rampColour pfd rm gm bm) ++ es.drop k) k
          (rampColour pfd rm gm bm k)
        = .ok ((List.range k).map (rampColour pfd rm gm bm)
            ++ (rampColour pfd rm gm bm k :: es.drop (k + 1))) := by
      unfold setEntry
      have hlt : k < ((List.range k).map (rampColour pfd rm gm bm) ++ es.drop k).length := by
        simp only [List.length_append, hlen, List.length_drop]
        omega
      rw [if_pos hlt, List.set_append_right _ _ (by rw [hlen]), hlen, Nat.sub_self,
        List.drop_eq_getElem_cons hk2]
      rfl
    simp [rampEntry_ok pfd rm gm bm k hrs hgs hbs hr hg hb, hset, bind, Except.bind, pure,
      Except.pure, List.map_append]

theorem buildLogPalette_rgba (pfd : PIXELFORMATDESCRIPTOR) (sys : List PALETTEENTRY)
    (hrgba : pfd.iPixelType = PFD_TYPE_RGBA) (hc : pfd.cColorBits ≤ 30)
    (hr : 1 ≤ pfd.cRedBits ∧ pfd.cRedBits ≤ 30) (hg : 1 ≤ pfd.cGreenBits ∧ pfd.cGreenBits ≤ 30)
    (hb : 1 ≤ pfd.cBlueBits ∧ pfd.cBlueBits ≤ 30)
    (hrs : pfd.cRedShift < 32) (hgs : pfd.cGreenShift < 32) (hbs : pfd.cBlueShift < 32) :
    buildLogPalette pfd sys
      = .ok { palVersion := 0x300, palNumEntries := min (2 ^ pfd.cColorBits) 256,
              palPalEntry :=
                (List.range (min (2 ^ pfd.cColorBits) 256)).map
                    (rampColour pfd (2 ^ pfd.cRedBits - 1) (2 ^ pfd.cGreenBits - 1)
                      (2 ^ pfd.cBlueBits - 1))
                  ++ (systemFill sys (min (2 ^ pfd.cColorBits) 256)).drop
                      (min (2 ^ pfd.cColorBits) 256) } := by
  have hc31 : pfd.cColorBits < 31 := by omega
  have hloop := rampLoop_prefix pfd (2 ^ pfd.cRedBits - 1) (2 ^ pfd.cGreenBits - 1)
    (2 ^ pfd.cBlueBits - 1) hrs hgs hbs (mask_pos _ hr.1) (mask_pos _ hg.1) (mask_pos _ hb.1)
    (systemFill sys (min (2 ^ pfd.cColorBits) 256)) (min (2 ^ pfd.cColorBits) 256)
    (by rw [length_systemFill]; omega)
  simp only [buildLogPalette, shl1, hc31, if_true, bind, Except.bind, entryCount_eq, hrgba,
    channelMask_ok _ hr.2, channelMask_ok _ hg.2, channelMask_ok _ hb.2]
  unfold systemFill at hloop
  rw [hloop]
  rfl

/-- Claim C10 fails for an RGBA pixel format that needs a palette and reports
no red bits: the red mask is 0 and the first pass of the ramp loop divides by
it. -/
theorem rgb_ramp_zero_bits_divides_by_zero :
    needsPalette rgbNoRed = true
      ∧ rgbNoRed.iPixelType = PFD_TYPE_RGBA
      ∧ channelMask rgbNoRed.cRedBits = .ok 0
      ∧ buildLogPalette rgbNoRed [] = .error .divisionByZero := by
  refine ⟨by decide, rfl, rfl, rfl⟩

/-- Claim C10, as the code has it.  For an RGBA pixel format of depth at most
30 whose three channels have between 1 and 30 bits each and shifts below 32,
and for every index `i` below the entry count `n = min (2^colourBits) 256`,
the palette is built without fault, has `n` entries, and its entry `i` holds
in each channel exactly `((i >> shift) & mask) * 255 / mask` with
`mask = 2^bits - 1`, flags 0: the mask is not zero and the value is at most
255, so the byte stored is the value itself.  For a 3-bit channel at shift 0
(mask 7) index 7 gives 255. -/
theorem rgb_ramp_entry (pfd : PIXELFORMATDESCRIPTOR) (sys : List PALETTEENTRY) (i : Nat)
    (hrgba : pfd.iPixelType = PFD_TYPE_RGBA) (hc : pfd.cColorBits ≤ 30)
    (hr : 1 ≤ pfd.cRedBits ∧ pfd.cRedBits ≤ 30) (hg : 1 ≤ pfd.cGreenBits ∧ pfd.cGreenBits ≤ 30)
    (hb : 1 ≤ pfd.cBlueBits ∧ pfd.cBlueBits ≤ 30)
    (hrs : pfd.cRedShift < 32) (hgs : pfd.cGreenShift < 32) (hbs : pfd.cBlueShift < 32)
    (hi : i < min (2 ^ pfd.cColorBits) 256) :
    ∃ lp, buildLogPalette pfd sys = .ok lp
      ∧ lp.palNumEntries = min (2 ^ pfd.cColorBits) 256
      ∧ lp.table.length = min (2 ^ pfd.cColorBits) 256
      ∧ lp.table[i]?
          = some { peRed := rampFormula i pfd.cRedShift (2 ^ pfd.cRedBits - 1)
                   peGreen := rampFormula i pfd.cGreenShift (2 ^ pfd.cGreenBits - 1)
                   peBlue := rampFormula i pfd.cBlueShift (2 ^ pfd.cBlueBits - 1)
                   peFlags := 0 }
      ∧ (2 ^ pfd.cRedBits - 1 ≠ 0 ∧ 2 ^ pfd.cGreenBits - 1 ≠ 0 ∧ 2 ^ pfd.cBlueBits - 1 ≠ 0)
      ∧ (rampFormula i pfd.cRedShift (2 ^ pfd.cRedBits - 1) ≤ 255
          ∧ rampFormula i pfd.cGreenShift (2 ^ pfd.cGreenBits - 1) ≤ 255
          ∧ rampFormula i pfd.cBlueShift (2 ^ pfd.cBlueBits - 1) ≤ 255)
      ∧ rampChannel 7 0 (2 ^ 3 - 1) = .ok 255 := by
  have htable : ((List.range (min (2 ^ pfd.cColorBits) 256)).map
        (rampColour pfd (2 ^ pfd.cRedBits - 1) (2 ^ pfd.cGreenBits - 1) (2 ^ pfd.cBlueBits - 1))
        ++ (systemFill sys (min (2 ^ pfd.cColorBits) 256)).drop
            (min (2 ^ pfd.cColorBits) 256)).take (min (2 ^ pfd.cColorBits) 256)
      = (List.range (min (2 ^ pfd.cColorBits) 256)).map
        (rampColour pfd (2 ^ pfd.cRedBits - 1) (2 ^ pfd.cGreenBits - 1)
          (2 ^ pfd.cBlueBits - 1)) :=
    List.take_left' (by simp)
  refine ⟨_, buildLogPalette_rgba pfd sys hrgba hc hr hg hb hrs hgs hbs, rfl, ?_, ?_,
    ⟨mask_pos _ hr.1, mask_pos _ hg.1, mask_pos _ hb.1⟩,
    ⟨rampFormula_le _ _ _, rampFormula_le _ _ _, rampFormula_le _ _ _⟩, rfl⟩
  · simp only [LOGPALETTE.table]
    rw [htable]
    simp
  · simp only [LOGPALETTE.table]
    rw [htable]
    simp [hi, rampColour]

/-- Claim C10, as the code has it, at the usual 8-bit format (3 bits of red at
shift 0, 3 of green at shift 3, 2 of blue at shift 6): entry 7 of the ramp is
pure red, `(255, 0, 0)`. -/
theorem rgb_ramp_entry_witness :
    ∃ lp, buildLogPalette rgb332 [] = .ok lp
      ∧ lp.palNumEntries = 256
      ∧ lp.table[7]? = some { peRed := 255, peGreen := 0, peBlue := 0, peFlags := 0 } := by
  obtain ⟨lp, h1, h2, _, h4, _⟩ :=
    rgb_ramp_entry rgb332 [] 7 rfl (by decide) (by decide) (by decide) (by decide) (by decide)
      (by decide) (by decide) (by decide)
  exact ⟨lp, h1, h2, h4⟩

/-! ## The palette block inside CreateOpenGLWindow -/

/-- When window creation and the pixel-format calls succeed and the described
format needs a palette, `CreateOpenGLWindow` returns the window and has handed
to `CreatePalette` exactly the logical palette `buildLogPalette` builds from
the described format and the system palette. -/
theorem CreateOpenGLWindow_palette (w : WindowPlatform) (title : String)
    (x y width height : Int) (type flags : Nat) (p : Program) (lp : LOGPALETTE)
    (hreg : w.registerClass = true) (hwnd : w.createWindow ≠ 0)
    (hpf : w.choosePixelFormat ≠ 0) (hset : w.setPixelFormat = true)
    (hneed : needsPalette w.describePixelFormat = true)
    (hbuild : buildLogPalette w.describePixelFormat w.systemPalette = .ok lp) :
    ∃ q, CreateOpenGLWindow w title x y width height type flags p = .ok (w.createWindow, q)
      ∧ Call.CreatePalette lp ∈ q.calls
      ∧ q.hPalette = w.createPalette := by
  by_cases hpal : w.createPalette = 0 <;>
    simp [CreateOpenGLWindow, hreg, hwnd, hpf, hset, hneed, hbuild, hpal, bind, Except.bind,
      pure, Except.pure]

end Animate
